import Mathlib

/-!
Shallow embedding of `django_elasticsearch_dsl/signals.py`.

The module is a notification-dispatch shim: signal handlers translate
data-store change events into calls on external collaborators (the search
index registry and the Celery task queue).  Each handler is embedded as a
function returning the sequence of collaborator calls it issues (its
effect trace); a small execution semantics (`runTrace`) runs a trace
against a parameterised collaborator-failure behaviour so that error
propagation and suppression can be stated.
-/

namespace DjangoES

/-- A Django model class, identified by its app label and class name
(`__name__`).  Stands for the `sender` / `instance._meta.concrete_model`
objects of the Python code. -/
structure Model where
  app_label : String
  name : String
deriving DecidableEq, Repr

/-- A model instance, with the attributes the signal handlers read:
`instance.pk`, `instance._meta.app_label`, and
`instance._meta.concrete_model`. -/
structure Instance where
  pk : Nat
  app_label : String
  concrete_model : Model
deriving DecidableEq, Repr

/-- One collaborator call issued by a handler: an index operation on the
registry (`registry.update`, `registry.update_related`, `registry.delete`,
`registry.delete_related`) or the enqueueing of a Celery task via
`.delay(pk, app_label, model_name)`.  The two enqueue constructors carry
only the record reference (primary key, app label, model name), never an
`Instance`. -/
inductive Effect where
  | update (inst : Instance)
  | update_related (inst : Instance)
  | delete (inst : Instance) (raise_on_error : Bool)
  | delete_related (inst : Instance)
  | delay_update_task (pk : Nat) (app_label : String) (model_name : String)
  | delay_update_related_task (pk : Nat) (app_label : String) (model_name : String)
deriving DecidableEq, Repr

/-- Whether an effect is the enqueueing of a background task. -/
def Effect.isEnqueue : Effect → Bool
  | .delay_update_task _ _ _ => true
  | .delay_update_related_task _ _ _ => true
  | _ => false

/-- The overridable handler methods of a signal-processor class.  Python
method overriding becomes record update; `handle_m2m_changed` dispatches
through these fields, which models dynamic dispatch on `self`. -/
structure SignalProcessor where
  handle_save : Model → Instance → List Effect
  handle_pre_delete : Model → Instance → List Effect
  handle_delete : Model → Instance → List Effect

namespace BaseSignalProcessor

/-- `BaseSignalProcessor.handle_save`: `registry.update(instance)` then
`registry.update_related(instance)`. -/
def handle_save (sender : Model) (inst : Instance) : List Effect :=
  let _ := sender
  [Effect.update inst, Effect.update_related inst]

/-- `BaseSignalProcessor.handle_pre_delete`: `registry.delete_related(instance)`. -/
def handle_pre_delete (sender : Model) (inst : Instance) : List Effect :=
  let _ := sender
  [Effect.delete_related inst]

/-- `BaseSignalProcessor.handle_delete`:
`registry.delete(instance, raise_on_error=False)`. -/
def handle_delete (sender : Model) (inst : Instance) : List Effect :=
  let _ := sender
  [Effect.delete inst false]

end BaseSignalProcessor

/-- The `BaseSignalProcessor` method table (also that of
`RealTimeSignalProcessor`, which overrides nothing). -/
def baseProcessor : SignalProcessor where
  handle_save := BaseSignalProcessor.handle_save
  handle_pre_delete := BaseSignalProcessor.handle_pre_delete
  handle_delete := BaseSignalProcessor.handle_delete

/-- `RealTimeSignalProcessor` adds no method overrides. -/
def realTimeProcessor : SignalProcessor := baseProcessor

/-- `BaseSignalProcessor.handle_m2m_changed`: dispatch on `action`, calling
`self.handle_save` for the post-phase actions and `self.handle_pre_delete`
for the pre-phase removal actions; any other action falls through both
conditions and does nothing. -/
def handle_m2m_changed (self : SignalProcessor) (sender : Model) (inst : Instance)
    (action : String) : List Effect :=
  if action = "post_add" ∨ action = "post_remove" ∨ action = "post_clear" then
    self.handle_save sender inst
  else if action = "pre_remove" ∨ action = "pre_clear" then
    self.handle_pre_delete sender inst
  else
    []

namespace CelerySignalProcessor

/-- `CelerySignalProcessor.handle_save`: reads `pk`, `app_label` and the
concrete model's `__name__` from the instance; if the concrete model is
not in the registry, enqueues `registry_update_task.delay(...)` and
`registry_update_related_task.delay(...)` with just those three values;
otherwise does nothing.  Registry membership is the abstract set of models
the registry contains, passed as a parameter. -/
def handle_save (registry : List Model) (sender : Model) (inst : Instance) : List Effect :=
  let _ := sender
  let pk := inst.pk
  let app_label := inst.app_label
  let model_name := inst.concrete_model.name
  if inst.concrete_model ∉ registry then
    [Effect.delay_update_task pk app_label model_name,
     Effect.delay_update_related_task pk app_label model_name]
  else
    []

end CelerySignalProcessor

/-- The `CelerySignalProcessor` method table: `BaseSignalProcessor` with
only `handle_save` overridden. -/
def celeryProcessor (registry : List Model) : SignalProcessor :=
  { baseProcessor with handle_save := CelerySignalProcessor.handle_save registry }

/-- Failure of a deferred task's record fetch: `model.objects.get(pk=pk)`
raised `DoesNotExist`. -/
inductive FetchError where
  | doesNotExist (model : Model) (pk : Nat)
deriving DecidableEq, Repr

namespace CelerySignalProcessor

/-- `CelerySignalProcessor.registry_update_task`: `apps.get_model` is the
function `get_model` (returning `none` where Python raises `LookupError`,
which the task catches and ignores); `model.objects.get(pk=pk)` is
`objects_get` (returning `none` where Python raises `DoesNotExist`, which
the task does not catch).  Returns the index-call trace together with the
task's outcome. -/
def registry_update_task (get_model : String → String → Option Model)
    (objects_get : Model → Nat → Option Instance)
    (pk : Nat) (app_label : String) (model_name : String) :
    List Effect × Except FetchError Unit :=
  match get_model app_label model_name with
  | none => ([], Except.ok ())
  | some model =>
    match objects_get model pk with
    | none => ([], Except.error (FetchError.doesNotExist model pk))
    | some obj => ([Effect.update obj], Except.ok ())

/-- `CelerySignalProcessor.registry_update_related_task`: same structure as
`registry_update_task`, calling `registry.update_related` instead. -/
def registry_update_related_task (get_model : String → String → Option Model)
    (objects_get : Model → Nat → Option Instance)
    (pk : Nat) (app_label : String) (model_name : String) :
    List Effect × Except FetchError Unit :=
  match get_model app_label model_name with
  | none => ([], Except.ok ())
  | some model =>
    match objects_get model pk with
    | none => ([], Except.error (FetchError.doesNotExist model pk))
    | some obj => ([Effect.update_related obj], Except.ok ())

end CelerySignalProcessor

/-- An error raised by a registry index operation. -/
inductive IndexError where
  | writeFailure
deriving DecidableEq, Repr

/-- Which index operations fail for which instance: the (arbitrary)
behaviour of the external search-index collaborator. -/
structure IndexBehavior where
  update_fails : Instance → Bool
  update_related_fails : Instance → Bool
  delete_fails : Instance → Bool
  delete_related_fails : Instance → Bool

/-- Modelled from the spec: the registry's index operations live in
`registries.py`, which is not part of this repository snapshot.  Per the
spec, `update`, `update_related` and `delete_related` raise on failure,
`delete(instance, raise_on_error)` suppresses an underlying failure when
`raise_on_error` is false, and enqueueing a task is fire-and-forget and
never fails. -/
def runEffect (b : IndexBehavior) : Effect → Except IndexError Unit
  | .update inst => if b.update_fails inst then Except.error IndexError.writeFailure else Except.ok ()
  | .update_related inst =>
      if b.update_related_fails inst then Except.error IndexError.writeFailure else Except.ok ()
  | .delete inst raise_on_error =>
      if b.delete_fails inst && raise_on_error then Except.error IndexError.writeFailure
      else Except.ok ()
  | .delete_related inst =>
      if b.delete_related_fails inst then Except.error IndexError.writeFailure else Except.ok ()
  | .delay_update_task _ _ _ => Except.ok ()
  | .delay_update_related_task _ _ _ => Except.ok ()

/-- Run a handler's call trace left to right, stopping at the first
collaborator error (Python's exception propagation through straight-line
code). -/
def runTrace (b : IndexBehavior) : List Effect → Except IndexError Unit
  | [] => Except.ok ()
  | e :: es =>
    match runEffect b e with
    | Except.ok _ => runTrace b es
    | Except.error err => Except.error err

/-- The four Django signals the mixin touches. -/
inductive DjangoSignal where
  | post_save
  | post_delete
  | m2m_changed
  | pre_delete
deriving DecidableEq, Repr

/-- The four handler methods the mixin connects. -/
inductive Handler where
  | handle_save
  | handle_delete
  | handle_m2m_changed
  | handle_pre_delete
deriving DecidableEq, Repr

/-- The receiver list of the Django signal machinery: which handler is
connected to which signal. -/
abbrev Receivers := List (DjangoSignal × Handler)

/-- `signal.connect(receiver)`: register the receiver. -/
def connect (sig : DjangoSignal) (h : Handler) (rs : Receivers) : Receivers :=
  rs ++ [(sig, h)]

/-- `signal.disconnect(receiver)`: remove the (first matching) registration. -/
def disconnect (sig : DjangoSignal) (h : Handler) (rs : Receivers) : Receivers :=
  rs.erase (sig, h)

namespace DjangoSignalsMixin

/-- `DjangoSignalsMixin.setup`: connect `handle_save` to `post_save`,
`handle_delete` to `post_delete`, `handle_m2m_changed` to `m2m_changed`,
`handle_pre_delete` to `pre_delete`, in source order. -/
def setup (rs : Receivers) : Receivers :=
  connect .pre_delete .handle_pre_delete
    (connect .m2m_changed .handle_m2m_changed
      (connect .post_delete .handle_delete
        (connect .post_save .handle_save rs)))

/-- `DjangoSignalsMixin.teardown`: disconnect the same four
receiver/signal pairs, in source order. -/
def teardown (rs : Receivers) : Receivers :=
  disconnect .pre_delete .handle_pre_delete
    (disconnect .m2m_changed .handle_m2m_changed
      (disconnect .post_delete .handle_delete
        (disconnect .post_save .handle_save rs)))

end DjangoSignalsMixin

/-- `BaseSignalProcessor.setup`: "Do nothing". -/
def BaseSignalProcessor.setup (rs : Receivers) : Receivers := rs

/-- `BaseSignalProcessor.__init__(self, connections)`: store the given
connections in `self.connections` and call `self.setup()`; `setup_method`
is whatever `self.setup` resolves to on the concrete class.  Returns the
stored attribute and the signal state after setup. -/
def signalProcessorInit {α : Type} (setup_method : Receivers → Receivers)
    (connections : α) (rs : Receivers) : α × Receivers :=
  (connections, setup_method rs)

/-- Constructing a `BaseSignalProcessor`: `self.setup` is the base no-op. -/
def BaseSignalProcessor.init {α : Type} (connections : α) (rs : Receivers) : α × Receivers :=
  signalProcessorInit BaseSignalProcessor.setup connections rs

/-- Constructing a `RealTimeSignalProcessor`: `self.setup` resolves to the
mixin's. -/
def RealTimeSignalProcessor.init {α : Type} (connections : α) (rs : Receivers) : α × Receivers :=
  signalProcessorInit DjangoSignalsMixin.setup connections rs

/-- Constructing a `CelerySignalProcessor`: `self.setup` resolves to the
mixin's. -/
def CelerySignalProcessor.init {α : Type} (connections : α) (rs : Receivers) : α × Receivers :=
  signalProcessorInit DjangoSignalsMixin.setup connections rs

/-! Concrete sample values used by the witness theorems. -/

/-- A sample model. -/
def exModel : Model := { app_label := "blog", name := "Article" }

/-- A second sample model. -/
def exModel2 : Model := { app_label := "blog", name := "Comment" }

/-- A sample instance of `exModel`. -/
def exInstance : Instance := { pk := 7, app_label := "blog", concrete_model := exModel }

/-- An index behaviour where no operation fails. -/
def exBehaviorOk : IndexBehavior where
  update_fails := fun _ => false
  update_related_fails := fun _ => false
  delete_fails := fun _ => false
  delete_related_fails := fun _ => false

/-- An index behaviour where `update` fails on every instance. -/
def exBehaviorUpdateFails : IndexBehavior where
  update_fails := fun _ => true
  update_related_fails := fun _ => false
  delete_fails := fun _ => false
  delete_related_fails := fun _ => false

/-- A `get_model` that always fails with `LookupError`. -/
def exGetModelNone : String → String → Option Model := fun _ _ => none

/-- A `get_model` that always resolves to `exModel`. -/
def exGetModelSome : String → String → Option Model := fun _ _ => some exModel

/-- An `objects.get` that always finds `exInstance`. -/
def exObjectsGetSome : Model → Nat → Option Instance := fun _ _ => some exInstance

/-- An `objects.get` that always raises `DoesNotExist`. -/
def exObjectsGetNone : Model → Nat → Option Instance := fun _ _ => none

/-- C1: the Celery processor's save handler enqueues exactly
`registry_update_task` and `registry_update_related_task`, each carrying
only the record reference (pk, app label, model name), when the instance's
concrete model is not in the registry, and enqueues nothing and performs
no index operation when it is. -/
theorem celery_handle_save_spec (registry : List Model) (sender : Model) (inst : Instance) :
    (inst.concrete_model ∉ registry →
      CelerySignalProcessor.handle_save registry sender inst =
        [Effect.delay_update_task inst.pk inst.app_label inst.concrete_model.name,
         Effect.delay_update_related_task inst.pk inst.app_label inst.concrete_model.name]) ∧
    (inst.concrete_model ∈ registry →
      CelerySignalProcessor.handle_save registry sender inst = []) := by
  constructor <;> intro h <;> simp [CelerySignalProcessor.handle_save, h]

/-- C1 witness: with an empty registry the two tasks are enqueued with
the record reference; with the instance's model registered, nothing is. -/
theorem celery_handle_save_spec_witness :
    CelerySignalProcessor.handle_save [] exModel exInstance =
      [Effect.delay_update_task 7 "blog" "Article",
       Effect.delay_update_related_task 7 "blog" "Article"] ∧
    CelerySignalProcessor.handle_save [exModel] exModel exInstance = [] :=
  ⟨(celery_handle_save_spec [] exModel exInstance).1 (by simp),
   (celery_handle_save_spec [exModel] exModel exInstance).2 (by decide)⟩

/-- C2: the Celery processor's delete and pre-delete handlers coincide
with the base (synchronous) ones, and neither ever enqueues a task. -/
theorem celery_delete_handlers_inherited (registry : List Model) (sender : Model)
    (inst : Instance) :
    (celeryProcessor registry).handle_delete sender inst =
      baseProcessor.handle_delete sender inst ∧
    (celeryProcessor registry).handle_pre_delete sender inst =
      baseProcessor.handle_pre_delete sender inst ∧
    ((celeryProcessor registry).handle_delete sender inst).all
      (fun e => ! e.isEnqueue) = true ∧
    ((celeryProcessor registry).handle_pre_delete sender inst).all
      (fun e => ! e.isEnqueue) = true := by
  refine ⟨rfl, rfl, ?_, ?_⟩ <;>
    simp [celeryProcessor, baseProcessor, BaseSignalProcessor.handle_delete,
      BaseSignalProcessor.handle_pre_delete, Effect.isEnqueue]

/-- C3: the m2m-changed dispatch forwards `post_add`, `post_remove` and
`post_clear` to the processor's save handler, and `pre_remove` and
`pre_clear` to its pre-delete handler, on the same instance. -/
theorem handle_m2m_changed_dispatch (p : SignalProcessor) (sender : Model) (inst : Instance) :
    handle_m2m_changed p sender inst "post_add" = p.handle_save sender inst ∧
    handle_m2m_changed p sender inst "post_remove" = p.handle_save sender inst ∧
    handle_m2m_changed p sender inst "post_clear" = p.handle_save sender inst ∧
    handle_m2m_changed p sender inst "pre_remove" = p.handle_pre_delete sender inst ∧
    handle_m2m_changed p sender inst "pre_clear" = p.handle_pre_delete sender inst := by
  refine ⟨?_, ?_, ?_, ?_, ?_⟩ <;> simp [handle_m2m_changed]

/-- C4: the base delete handler calls the index's delete with
`raise_on_error = false`, and under every index-failure behaviour the
handler's trace runs to a normal return — an index delete failure never
propagates. -/
theorem handle_delete_suppresses (b : IndexBehavior) (sender : Model) (inst : Instance) :
    BaseSignalProcessor.handle_delete sender inst = [Effect.delete inst false] ∧
    runTrace b (BaseSignalProcessor.handle_delete sender inst) = Except.ok () := by
  refine ⟨rfl, ?_⟩
  simp [BaseSignalProcessor.handle_delete, runTrace, runEffect]

/-- C5: each deferred update task does nothing (and raises nothing) when
type resolution fails; calls the corresponding index update on the
re-fetched record when both resolution and fetch succeed; and calls no
index operation while propagating the fetch error when the record no
longer exists. -/
theorem registry_update_tasks_spec (get_model : String → String → Option Model)
    (objects_get : Model → Nat → Option Instance)
    (pk : Nat) (app_label : String) (model_name : String) :
    (get_model app_label model_name = none →
      CelerySignalProcessor.registry_update_task get_model objects_get pk app_label model_name =
        ([], Except.ok ()) ∧
      CelerySignalProcessor.registry_update_related_task get_model objects_get pk app_label
        model_name = ([], Except.ok ())) ∧
    (∀ m : Model, get_model app_label model_name = some m →
      (∀ obj : Instance, objects_get m pk = some obj →
        CelerySignalProcessor.registry_update_task get_model objects_get pk app_label
          model_name = ([Effect.update obj], Except.ok ()) ∧
        CelerySignalProcessor.registry_update_related_task get_model objects_get pk app_label
          model_name = ([Effect.update_related obj], Except.ok ())) ∧
      (objects_get m pk = none →
        CelerySignalProcessor.registry_update_task get_model objects_get pk app_label
          model_name = ([], Except.error (FetchError.doesNotExist m pk)) ∧
        CelerySignalProcessor.registry_update_related_task get_model objects_get pk app_label
          model_name = ([], Except.error (FetchError.doesNotExist m pk)))) := by
  refine ⟨fun h => ?_, fun m hm => ⟨fun obj hobj => ?_, fun h => ?_⟩⟩ <;>
    simp_all [CelerySignalProcessor.registry_update_task,
      CelerySignalProcessor.registry_update_related_task]

/-- C5 witness: concrete resolution/fetch functions exercising all three
branches of `registry_update_tasks_spec`. -/
theorem registry_update_tasks_spec_witness :
    (CelerySignalProcessor.registry_update_task exGetModelNone exObjectsGetSome 7 "blog"
        "Article" = ([], Except.ok ()) ∧
      CelerySignalProcessor.registry_update_related_task exGetModelNone exObjectsGetSome 7
        "blog" "Article" = ([], Except.ok ())) ∧
    (CelerySignalProcessor.registry_update_task exGetModelSome exObjectsGetSome 7 "blog"
        "Article" = ([Effect.update exInstance], Except.ok ()) ∧
      CelerySignalProcessor.registry_update_related_task exGetModelSome exObjectsGetSome 7
        "blog" "Article" = ([Effect.update_related exInstance], Except.ok ())) ∧
    (CelerySignalProcessor.registry_update_task exGetModelSome exObjectsGetNone 7 "blog"
        "Article" = ([], Except.error (FetchError.doesNotExist exModel 7)) ∧
      CelerySignalProcessor.registry_update_related_task exGetModelSome exObjectsGetNone 7
        "blog" "Article" = ([], Except.error (FetchError.doesNotExist exModel 7))) :=
  ⟨(registry_update_tasks_spec exGetModelNone exObjectsGetSome 7 "blog" "Article").1 rfl,
   ((registry_update_tasks_spec exGetModelSome exObjectsGetSome 7 "blog" "Article").2
      exModel rfl).1 exInstance rfl,
   ((registry_update_tasks_spec exGetModelSome exObjectsGetNone 7 "blog" "Article").2
      exModel rfl).2 rfl⟩

/-- C6: the base save handler issues exactly one index update and one
related update on the instance, in that order; a failure of either
operation propagates to the caller, and with no failures the handler
returns normally. -/
theorem base_handle_save_spec (b : IndexBehavior) (sender : Model) (inst : Instance) :
    BaseSignalProcessor.handle_save sender inst =
      [Effect.update inst, Effect.update_related inst] ∧
    (b.update_fails inst = true →
      runTrace b (BaseSignalProcessor.handle_save sender inst) =
        Except.error IndexError.writeFailure) ∧
    (b.update_fails inst = false → b.update_related_fails inst = true →
      runTrace b (BaseSignalProcessor.handle_save sender inst) =
        Except.error IndexError.writeFailure) ∧
    (b.update_fails inst = false → b.update_related_fails inst = false →
      runTrace b (BaseSignalProcessor.handle_save sender inst) = Except.ok ()) := by
  refine ⟨rfl, fun h1 => ?_, fun h1 h2 => ?_, fun h1 h2 => ?_⟩ <;>
    simp [BaseSignalProcessor.handle_save, runTrace, runEffect, h1]
  · simp [h2]
  · simp [h2]

/-- C6 witness: `base_handle_save_spec` at a failing-update behaviour and
at an all-succeeding behaviour. -/
theorem base_handle_save_spec_witness :
    runTrace exBehaviorUpdateFails
        (BaseSignalProcessor.handle_save exModel exInstance) =
      Except.error IndexError.writeFailure ∧
    runTrace exBehaviorOk (BaseSignalProcessor.handle_save exModel exInstance) =
      Except.ok () :=
  ⟨(base_handle_save_spec exBehaviorUpdateFails exModel exInstance).2.1 rfl,
   (base_handle_save_spec exBehaviorOk exModel exInstance).2.2.2 rfl rfl⟩

/-- C7: the mixin's setup subscribes exactly the four handler/signal pairs
(save to post-save, delete to post-delete, m2m dispatch to m2m-changed,
pre-delete to pre-delete), and teardown removes exactly those four again:
on any receiver state not already containing them, teardown after setup
restores the state. -/
theorem mixin_setup_teardown_spec :
    DjangoSignalsMixin.setup [] =
      [(DjangoSignal.post_save, Handler.handle_save),
       (DjangoSignal.post_delete, Handler.handle_delete),
       (DjangoSignal.m2m_changed, Handler.handle_m2m_changed),
       (DjangoSignal.pre_delete, Handler.handle_pre_delete)] ∧
    ∀ rs : Receivers,
      (DjangoSignal.post_save, Handler.handle_save) ∉ rs →
      (DjangoSignal.post_delete, Handler.handle_delete) ∉ rs →
      (DjangoSignal.m2m_changed, Handler.handle_m2m_changed) ∉ rs →
      (DjangoSignal.pre_delete, Handler.handle_pre_delete) ∉ rs →
      DjangoSignalsMixin.teardown (DjangoSignalsMixin.setup rs) = rs := by
  refine ⟨rfl, fun rs h1 h2 h3 h4 => ?_⟩
  simp only [DjangoSignalsMixin.setup, DjangoSignalsMixin.teardown, connect, disconnect,
    List.append_assoc]
  rw [List.erase_append_right _ h1]
  rw [List.erase_append_right _ h2]
  rw [List.erase_append_right _ h3]
  rw [List.erase_append_right _ h4]
  simp

/-- C7 witness: `mixin_setup_teardown_spec`'s symmetry clause at the empty
receiver state. -/
theorem mixin_setup_teardown_spec_witness :
    DjangoSignalsMixin.teardown (DjangoSignalsMixin.setup []) = [] :=
  (mixin_setup_teardown_spec).2 [] (by simp) (by simp) (by simp) (by simp)

/-- C8: the Celery processor's inherited m2m dispatch reaches the
overridden save handler for the post-phase actions — so, for an
unregistered model, such events enqueue the two tasks and touch no index
operation inline — while the pre-phase actions still run the synchronous
related-delete. -/
theorem celery_m2m_deferred (registry : List Model) (sender : Model) (inst : Instance) :
    handle_m2m_changed (celeryProcessor registry) sender inst "post_add" =
      CelerySignalProcessor.handle_save registry sender inst ∧
    handle_m2m_changed (celeryProcessor registry) sender inst "post_remove" =
      CelerySignalProcessor.handle_save registry sender inst ∧
    handle_m2m_changed (celeryProcessor registry) sender inst "post_clear" =
      CelerySignalProcessor.handle_save registry sender inst ∧
    (inst.concrete_model ∉ registry →
      handle_m2m_changed (celeryProcessor registry) sender inst "post_add" =
        [Effect.delay_update_task inst.pk inst.app_label inst.concrete_model.name,
         Effect.delay_update_related_task inst.pk inst.app_label inst.concrete_model.name]) ∧
    handle_m2m_changed (celeryProcessor registry) sender inst "pre_remove" =
      [Effect.delete_related inst] ∧
    handle_m2m_changed (celeryProcessor registry) sender inst "pre_clear" =
      [Effect.delete_related inst] := by
  refine ⟨?_, ?_, ?_,
    fun h => by simp [handle_m2m_changed, celeryProcessor,
      CelerySignalProcessor.handle_save, h], ?_, ?_⟩ <;>
    simp [handle_m2m_changed, celeryProcessor, baseProcessor,
      BaseSignalProcessor.handle_pre_delete]

/-- C8 witness: with an empty registry, a `post_add` event on the Celery
processor enqueues the two tasks. -/
theorem celery_m2m_deferred_witness :
    handle_m2m_changed (celeryProcessor []) exModel exInstance "post_add" =
      [Effect.delay_update_task 7 "blog" "Article",
       Effect.delay_update_related_task 7 "blog" "Article"] :=
  (celery_m2m_deferred [] exModel exInstance).2.2.2.1 (by simp)

/-- C9: each constructor stores the given connections and calls
`self.setup()`: the base class leaves the receiver state unchanged, while
the two signal-mixin processors establish the four subscriptions as a side
effect of construction. -/
theorem processor_init_spec {α : Type} (connections : α) (rs : Receivers) :
    BaseSignalProcessor.init connections rs = (connections, rs) ∧
    RealTimeSignalProcessor.init connections rs =
      (connections, DjangoSignalsMixin.setup rs) ∧
    CelerySignalProcessor.init connections rs =
      (connections, DjangoSignalsMixin.setup rs) ∧
    (RealTimeSignalProcessor.init connections []).2 =
      [(DjangoSignal.post_save, Handler.handle_save),
       (DjangoSignal.post_delete, Handler.handle_delete),
       (DjangoSignal.m2m_changed, Handler.handle_m2m_changed),
       (DjangoSignal.pre_delete, Handler.handle_pre_delete)] :=
  ⟨rfl, rfl, rfl, rfl⟩

/-- C10: an m2m-changed event with an action outside the five recognized
values produces no collaborator call at all, for any processor, and its
(empty) trace runs to a normal return under any index behaviour. -/
theorem m2m_unrecognized_action_noop (p : SignalProcessor) (b : IndexBehavior)
    (sender : Model) (inst : Instance) (action : String)
    (h : action ∉ ["post_add", "post_remove", "post_clear", "pre_remove", "pre_clear"]) :
    handle_m2m_changed p sender inst action = [] ∧
    runTrace b (handle_m2m_changed p sender inst action) = Except.ok () := by
  simp only [List.mem_cons, List.mem_singleton, not_or] at h
  obtain ⟨h1, h2, h3, h4, h5⟩ := h
  simp [handle_m2m_changed, h1, h2, h3, h4, h5, runTrace]

/-- C10 witness: the unrecognized action `pre_add` on the base processor. -/
theorem m2m_unrecognized_action_noop_witness :
    handle_m2m_changed baseProcessor exModel exInstance "pre_add" = [] ∧
    runTrace exBehaviorOk (handle_m2m_changed baseProcessor exModel exInstance "pre_add") =
      Except.ok () :=
  m2m_unrecognized_action_noop baseProcessor exBehaviorOk exModel exInstance "pre_add"
    (by simp)

end DjangoES
